import Mathlib

/-!
Verification of the NeuraControl command-mapping and dispatch core
(`streamlit_app.py`): the translation of free-form text into device
actuation commands (`parse_device_commands`), the wire-byte mapping and
serial delivery (`send_arduino_command`), and the Send Command handler
that ties the LLM reply to the actuation loop.

The embedding is shallow: Python strings become Lean `String`, the
`in` substring test becomes `containsSub`, `str.lower()` becomes
`lowerStr`, the `dict` built by the if/elif chains becomes an ordered
association list (Python dicts preserve insertion order), and the
streamlit side effects (`st.success`/`st.error`/`st.warning`) together
with the boolean return value become an explicit `Outcome` record.
Serial-port behaviour is a parameter: whether `get_arduino_connection`
returns a connection, and whether `arduino.write` raises.
-/

namespace NeuraControl

/-- Model of Python `needle in hay`: substring containment. -/
def containsSub (hay needle : String) : Bool :=
  hay.toList.tails.any (fun t => needle.toList.isPrefixOf t)

/-- Model of Python `str.lower()` (ASCII case fold, which is all the
phrases and inputs at issue use). -/
def lowerStr (s : String) : String :=
  String.mk (s.toList.map Char.toLower)

/-- The device registry: the keys of `st.session_state.device_states`
(streamlit_app.py lines 104-109), in definition order, which is also the
order of the `devices` card list (lines 425-430) and of the check blocks
in `parse_device_commands`. -/
def registry : List String :=
  ["led", "fan", "heater", "lights"]

/-- One `if phrase-on in text ... elif phrase-off in text ...` block of
`parse_device_commands` (lines 196-217): `some (d, true)` when the ON
phrase occurs, else `some (d, false)` when the OFF phrase occurs, else
`none` (the device is not inserted into the dict). -/
def entry (r onP offP : String) (d : String) : Option (String × Bool) :=
  if containsSub r onP then some (d, true)
  else if containsSub r offP then some (d, false)
  else none

/-- `parse_device_commands` (streamlit_app.py lines 190-219): lower-case
the response, then run the four if/elif blocks in order, building the
commands dict in insertion order led, fan, heater, lights. -/
def parse_device_commands (response : String) : List (String × Bool) :=
  let r := lowerStr response
  (entry r "led on" "led off" "led").toList
    ++ ((entry r "fan on" "fan off" "fan").toList
    ++ ((entry r "heater on" "heater off" "heater").toList
    ++ (entry r "lights on" "lights off" "lights").toList))

/-- The ON trigger phrase of a device, as matched by the source. -/
def onPhrase (d : String) : String := d ++ " on"

/-- The OFF trigger phrase of a device, as matched by the source. -/
def offPhrase (d : String) : String := d ++ " off"

/-- `device_map.get(device, '0')` (streamlit_app.py lines 231-238): the
wire byte for a (device, state) pair, with fallback `'0'` for a device
absent from the map. -/
def device_map (device : String) (state : Bool) : Char :=
  if device = "led" then (if state then '1' else '0')
  else if device = "fan" then (if state then '3' else '2')
  else if device = "heater" then (if state then '5' else '4')
  else if device = "lights" then (if state then '7' else '6')
  else '0'

/-- Result of one `arduino.write` call: returns normally or raises. -/
inductive SerialResult
  | ok
  | raised (msg : String)

/-- Serial-port environment of one `send_arduino_command` call:
whether `get_arduino_connection()` yields a connection (lines 141-167
return `None` on any failure), and what `arduino.write` does for a
given byte. -/
structure Transport where
  connAvailable : Bool
  write : Char → SerialResult

/-- Kind of streamlit message shown by `send_arduino_command`. -/
inductive MsgKind
  | success
  | error
  | warning
deriving DecidableEq, Repr

/-- Observable outcome of one `send_arduino_command` call: the boolean
return value, the kind of streamlit message shown, whether that message
reports the command as simulated rather than physically delivered
(the demo-mode and not-connected branches), and the byte written to the
serial port, if any. -/
structure Outcome where
  ret : Bool
  msgKind : MsgKind
  simulated : Bool
  written : Option Char
deriving DecidableEq, Repr

/-- `send_arduino_command` (streamlit_app.py lines 221-253): demo mode
short-circuits with a simulated success; otherwise open the connection;
with a connection, write the mapped byte inside try/except (any raised
exception is caught, an error message shown, `False` returned); with no
connection, show a warning that the command was simulated and return
`False`. The function never lets an exception escape. -/
def send_arduino_command (env : Transport) (demoMode : Bool)
    (device : String) (state : Bool) : Outcome :=
  if demoMode then
    { ret := true, msgKind := .success, simulated := true, written := none }
  else if env.connAvailable then
    let command := device_map device state
    match env.write command with
    | .ok =>
        { ret := true, msgKind := .success, simulated := false,
          written := some command }
    | .raised _ =>
        { ret := false, msgKind := .error, simulated := false,
          written := none }
  else
    { ret := false, msgKind := .warning, simulated := true, written := none }

/-- Result of the Groq chat-completion call inside `send_ai_prompt`. -/
inductive LlmResult
  | ok (reply : String)
  | err (msg : String)

/-- `send_ai_prompt` (streamlit_app.py lines 169-188): returns the model
reply, or on any exception the string "AI Error: " followed by the
exception text. It never raises. -/
def send_ai_prompt (r : LlmResult) : String :=
  match r with
  | .ok reply => reply
  | .err msg => "AI Error: " ++ msg

/-- The Send Command handler (streamlit_app.py lines 363-379): obtain
the AI response text, parse it for device commands, and for each
command (in dict insertion order) call `send_arduino_command`,
collecting the per-device outcomes. Returns the response text and the
outcome sequence. -/
def dispatch (env : Transport) (demoMode : Bool) (llm : LlmResult) :
    String × List (String × Outcome) :=
  let ai_response := send_ai_prompt llm
  let commands := parse_device_commands ai_response
  (ai_response, commands.map (fun p => (p.1, send_arduino_command env demoMode p.1 p.2)))

/-! ## Helper lemmas about `parse_device_commands` -/

theorem lookup_entry_toList_ne (r onP offP d e : String)
    (h : (d == e) = false) (l : List (String × Bool)) :
    List.lookup d ((entry r onP offP e).toList ++ l) = List.lookup d l := by
  unfold entry
  split
  · simp [List.lookup, h]
  · split
    · simp [List.lookup, h]
    · simp

theorem lookup_entry_toList_lone (r onP offP d e : String)
    (h : (d == e) = false) :
    List.lookup d (entry r onP offP e).toList = none := by
  simpa using lookup_entry_toList_ne r onP offP d e h []

theorem lookup_entry_toList_self (r onP offP d : String)
    (l : List (String × Bool)) (hl : List.lookup d l = none) :
    List.lookup d ((entry r onP offP d).toList ++ l) =
      (if containsSub r onP then some true
       else if containsSub r offP then some false
       else none) := by
  unfold entry
  split
  · simp [List.lookup]
  · split
    · simp [List.lookup]
    · simpa using hl

theorem lookup_entry_toList_self_lone (r onP offP d : String) :
    List.lookup d (entry r onP offP d).toList =
      (if containsSub r onP then some true
       else if containsSub r offP then some false
       else none) := by
  simpa using lookup_entry_toList_self r onP offP d [] rfl

/-- Full characterization of what `parse_device_commands` records for a
registry device: the first-matching branch of the if/elif chain over the
lower-cased response. -/
theorem parse_lookup_spec (text d : String) (hd : d ∈ registry) :
    List.lookup d (parse_device_commands text) =
      (if containsSub (lowerStr text) (onPhrase d) then some true
       else if containsSub (lowerStr text) (offPhrase d) then some false
       else none) := by
  have hled : onPhrase "led" = "led on" ∧ offPhrase "led" = "led off" := ⟨rfl, rfl⟩
  have hfan : onPhrase "fan" = "fan on" ∧ offPhrase "fan" = "fan off" := ⟨rfl, rfl⟩
  have hheater : onPhrase "heater" = "heater on" ∧ offPhrase "heater" = "heater off" :=
    ⟨rfl, rfl⟩
  have hlights : onPhrase "lights" = "lights on" ∧ offPhrase "lights" = "lights off" :=
    ⟨rfl, rfl⟩
  simp only [registry, List.mem_cons, List.not_mem_nil, or_false] at hd
  rcases hd with h | h | h | h <;> subst h <;>
    simp only [parse_device_commands]
  · rw [hled.1, hled.2]
    have hrest : List.lookup "led"
        ((entry (lowerStr text) "fan on" "fan off" "fan").toList
          ++ ((entry (lowerStr text) "heater on" "heater off" "heater").toList
          ++ (entry (lowerStr text) "lights on" "lights off" "lights").toList)) = none := by
      rw [lookup_entry_toList_ne _ _ _ _ _ (by decide),
        lookup_entry_toList_ne _ _ _ _ _ (by decide),
        lookup_entry_toList_lone _ _ _ _ _ (by decide)]
    exact lookup_entry_toList_self _ "led on" "led off" "led" _ hrest
  · rw [hfan.1, hfan.2]
    have hrest : List.lookup "fan"
        ((entry (lowerStr text) "heater on" "heater off" "heater").toList
          ++ (entry (lowerStr text) "lights on" "lights off" "lights").toList) = none := by
      rw [lookup_entry_toList_ne _ _ _ _ _ (by decide),
        lookup_entry_toList_lone _ _ _ _ _ (by decide)]
    rw [lookup_entry_toList_ne _ _ _ _ _ (by decide)]
    exact lookup_entry_toList_self _ "fan on" "fan off" "fan" _ hrest
  · rw [hheater.1, hheater.2]
    have hrest : List.lookup "heater"
        (entry (lowerStr text) "lights on" "lights off" "lights").toList = none :=
      lookup_entry_toList_lone _ _ _ _ _ (by decide)
    rw [lookup_entry_toList_ne _ _ _ _ _ (by decide),
      lookup_entry_toList_ne _ _ _ _ _ (by decide)]
    exact lookup_entry_toList_self _ "heater on" "heater off" "heater" _ hrest
  · rw [hlights.1, hlights.2]
    rw [lookup_entry_toList_ne _ _ _ _ _ (by decide),
      lookup_entry_toList_ne _ _ _ _ _ (by decide),
      lookup_entry_toList_ne _ _ _ _ _ (by decide)]
    exact lookup_entry_toList_self_lone _ "lights on" "lights off" "lights"

/-! ## Claim theorems -/

/-- Claim C1, counterexample: on the spec's own example input, which
contains both "fan on" and "fan off", `parse_device_commands` records
ON (`true`) for `fan`, not OFF as the claim states: the ON check is an
`if` and the OFF check an `elif`, so a matching ON phrase shadows the
OFF phrase entirely. -/
theorem C1_counterexample :
    containsSub (lowerStr "turn the fan on then fan off") (onPhrase "fan") = true
    ∧ containsSub (lowerStr "turn the fan on then fan off") (offPhrase "fan") = true
    ∧ List.lookup "fan" (parse_device_commands "turn the fan on then fan off")
        = some true :=
  ⟨by decide, by decide, by decide⟩

/-- Claim C1, amended: when an input text contains both the ON phrase
and the OFF phrase of the same registry device, extraction returns ON
for that device — ON is evaluated first and its `if` branch shadows the
`elif` OFF check, so the first-evaluated match wins. -/
theorem C1_both_phrases_on_wins (text d : String) (hd : d ∈ registry)
    (hon : containsSub (lowerStr text) (onPhrase d) = true)
    (hoff : containsSub (lowerStr text) (offPhrase d) = true) :
    List.lookup d (parse_device_commands text) = some true := by
  rw [parse_lookup_spec text d hd]
  simp [hon]

/-- Witness for `C1_both_phrases_on_wins` at the spec's example input. -/
theorem C1_witness :
    ("fan" ∈ registry
      ∧ containsSub (lowerStr "turn the fan on then fan off") (onPhrase "fan") = true
      ∧ containsSub (lowerStr "turn the fan on then fan off") (offPhrase "fan") = true)
    ∧ List.lookup "fan" (parse_device_commands "turn the fan on then fan off")
        = some true :=
  ⟨⟨by decide, by decide, by decide⟩,
    C1_both_phrases_on_wins "turn the fan on then fan off" "fan"
      (by decide) (by decide) (by decide)⟩

/-- Claim C2, counterexample: when the LLM call fails with an exception
whose text is "FAN ON", the handler parses the surfaced string
"AI Error: FAN ON" like a normal reply, so the outcome sequence is not
empty and a serial write of byte '3' is attempted — `send_ai_prompt`
catches the exception and returns the error text, and the handler never
checks for it. -/
theorem C2_counterexample :
    (dispatch ⟨true, fun _ => .ok⟩ false (.err "FAN ON")).2 ≠ []
    ∧ ((dispatch ⟨true, fun _ => .ok⟩ false (.err "FAN ON")).2.map
        (fun p => p.2.written)) = [some '3'] :=
  ⟨by decide, by decide⟩

/-- Claim C2, amended: on an LLM failure the handler surfaces the error
by using "AI Error: " followed by the exception text as the reply, and
runs extraction over that string like any reply; whenever the error
text yields no device command (the typical case), the outcome sequence
is empty and no Transport write is attempted. -/
theorem C2_llm_error_dispatch (env : Transport) (demoMode : Bool) (msg : String)
    (h : parse_device_commands ("AI Error: " ++ msg) = []) :
    (dispatch env demoMode (.err msg)).1 = "AI Error: " ++ msg
    ∧ (dispatch env demoMode (.err msg)).2 = [] := by
  refine ⟨rfl, ?_⟩
  simp [dispatch, send_ai_prompt, h]

/-- Witness for `C2_llm_error_dispatch` on a typical error text. -/
theorem C2_witness :
    parse_device_commands ("AI Error: " ++ "Connection timed out") = []
    ∧ (dispatch ⟨false, fun _ => .ok⟩ false (.err "Connection timed out")).2 = [] :=
  ⟨by decide,
    (C2_llm_error_dispatch ⟨false, fun _ => .ok⟩ false "Connection timed out"
      (by decide)).2⟩

/-- Claim C3, counterexample: with demo mode off and no connection
available, `send_arduino_command` returns `False` — the same return
value as a hard write failure — and shows a warning, so the outcome is
not "reported as a success"; only the message text, not the result
value, distinguishes the simulated case. -/
theorem C3_counterexample :
    (send_arduino_command ⟨false, fun _ => .ok⟩ false "fan" true).ret = false
    ∧ (send_arduino_command ⟨false, fun _ => .ok⟩ false "fan" true).msgKind
        = MsgKind.warning :=
  ⟨rfl, rfl⟩

/-- Claim C3, amended: when no actuator connection can be opened, for
every device and state the outcome is a warning message reporting the
command as simulated, with return value `False` (no exception is
raised, and no exception escapes), and no byte is written to the serial
port. -/
theorem C3_unreachable_simulated (w : Char → SerialResult)
    (device : String) (state : Bool) :
    send_arduino_command ⟨false, w⟩ false device state
      = { ret := false, msgKind := .warning, simulated := true, written := none } :=
  rfl

/-- Claim C4: every command extracted by `parse_device_commands` names
a device of the registry, and the number of extracted commands never
exceeds the registry size 4. -/
theorem C4_commands_in_registry (text : String) :
    (parse_device_commands text).all (fun p => registry.contains p.1) = true
    ∧ (parse_device_commands text).length ≤ 4 := by
  simp only [parse_device_commands, entry]
  split_ifs <;> decide

/-- Claim C5: the wire-byte mapping of `send_arduino_command` gives
device i of the registry the ASCII codes '0'+2i for OFF and '0'+2i+1
for ON, every device's ON code differs from its OFF code, and the
eight codes are pairwise distinct. -/
theorem C5_wire_format :
    (List.range registry.length).all (fun i =>
        (device_map (registry.getD i "") false == Char.ofNat ('0'.toNat + 2 * i))
        && (device_map (registry.getD i "") true == Char.ofNat ('0'.toNat + 2 * i + 1)))
      = true
    ∧ (registry.all (fun d => device_map d true != device_map d false)) = true
    ∧ (registry.flatMap (fun d => [device_map d false, device_map d true])).Nodup :=
  ⟨by decide, by decide, by decide⟩

/-- The device names an if/elif block can contribute form a sublist of
the singleton of its own device. -/
theorem block_fst_sublist (r onP offP d : String) :
    List.Sublist ((entry r onP offP d).toList.map Prod.fst) [d] := by
  unfold entry
  split
  · exact List.Sublist.refl _
  · split
    · exact List.Sublist.refl _
    · exact List.nil_sublist _

/-- Claim C6: the devices of the outcome sequence produced by the Send
Command handler occur in registry-definition order (led, fan, heater,
lights) — a sublist of the registry — because the commands dict is
built by the fixed led/fan/heater/lights check blocks, not in the order
phrases occur in the reply text. -/
theorem C6_registry_order (env : Transport) (demoMode : Bool) (llm : LlmResult) :
    List.Sublist ((dispatch env demoMode llm).2.map Prod.fst) registry := by
  have h : ∀ resp : String,
      List.Sublist ((parse_device_commands resp).map Prod.fst) registry := by
    intro resp
    have h4 := (block_fst_sublist (lowerStr resp) "led on" "led off" "led").append
      ((block_fst_sublist (lowerStr resp) "fan on" "fan off" "fan").append
        ((block_fst_sublist (lowerStr resp) "heater on" "heater off" "heater").append
          (block_fst_sublist (lowerStr resp) "lights on" "lights off" "lights")))
    simpa [parse_device_commands, registry] using h4
  have h2 : (dispatch env demoMode llm).2.map Prod.fst
      = (parse_device_commands (send_ai_prompt llm)).map Prod.fst := by
    simp only [dispatch, List.map_map]
    rfl
  rw [h2]
  exact h _

/-- Claim C7: a registry device whose ON phrase and OFF phrase both
fail to occur in the lower-cased text is absent from the extraction
result — no implicit OFF default is recorded, and extraction is a total
function (no exception for absent matches). -/
theorem C7_absent_no_default (text d : String) (hd : d ∈ registry)
    (hon : containsSub (lowerStr text) (onPhrase d) = false)
    (hoff : containsSub (lowerStr text) (offPhrase d) = false) :
    List.lookup d (parse_device_commands text) = none := by
  rw [parse_lookup_spec text d hd]
  simp [hon, hoff]

/-- Witness for `C7_absent_no_default`. -/
theorem C7_witness :
    ("fan" ∈ registry
      ∧ containsSub (lowerStr "hello world") (onPhrase "fan") = false
      ∧ containsSub (lowerStr "hello world") (offPhrase "fan") = false)
    ∧ List.lookup "fan" (parse_device_commands "hello world") = none :=
  ⟨⟨by decide, by decide, by decide⟩,
    C7_absent_no_default "hello world" "fan" (by decide) (by decide) (by decide)⟩

/-- Claim C8: extraction is exactly case-folded substring containment:
what `parse_device_commands` records for a registry device is fully
determined by whether its ON (resp. OFF) phrase occurs as a substring
anywhere in the lower-cased text, with no word-boundary awareness. -/
theorem C8_casefold_substring (text d : String) (hd : d ∈ registry) :
    List.lookup d (parse_device_commands text) =
      (if containsSub (lowerStr text) (onPhrase d) then some true
       else if containsSub (lowerStr text) (offPhrase d) then some false
       else none) :=
  parse_lookup_spec text d hd

/-- Witness for `C8_casefold_substring`: the phrase "led on" occurring
inside "the LED on the table" (no word boundary) still counts as an ON
match after case folding. -/
theorem C8_witness :
    ("led" ∈ registry)
    ∧ List.lookup "led" (parse_device_commands "the LED on the table")
        = (if containsSub (lowerStr "the LED on the table") (onPhrase "led")
           then some true
           else if containsSub (lowerStr "the LED on the table") (offPhrase "led")
           then some false
           else none)
    ∧ List.lookup "led" (parse_device_commands "the LED on the table") = some true :=
  ⟨by decide,
    C8_casefold_substring "the LED on the table" "led" (by decide),
    by decide⟩

/-- Claim C9: a raised write exception is caught inside
`send_arduino_command` and recorded as that device's error outcome, and
an unavailable connection is recorded as a warning outcome — neither
propagates out — and the handler's outcome sequence always has exactly
one entry per extracted command, so one device's failure never prevents
attempting the rest and the full sequence is returned unconditionally. -/
theorem C9_errors_contained (envW envC : Transport) (llm : LlmResult)
    (device : String) (state : Bool) (msg : String)
    (hw : envW.connAvailable = true)
    (hraise : envW.write (device_map device state) = .raised msg)
    (hc : envC.connAvailable = false) :
    send_arduino_command envW false device state
      = { ret := false, msgKind := .error, simulated := false, written := none }
    ∧ send_arduino_command envC false device state
      = { ret := false, msgKind := .warning, simulated := true, written := none }
    ∧ (dispatch envW false llm).2.length
        = (parse_device_commands (send_ai_prompt llm)).length
    ∧ (dispatch envC false llm).2.length
        = (parse_device_commands (send_ai_prompt llm)).length := by
  refine ⟨?_, ?_, ?_, ?_⟩
  · simp [send_arduino_command, hw, hraise]
  · simp [send_arduino_command, hc]
  · simp [dispatch]
  · simp [dispatch]

/-- Witness for `C9_errors_contained`: a transport whose every write
raises still yields one outcome per extracted command (here two). -/
theorem C9_witness :
    ((⟨true, fun _ => .raised "boom"⟩ : Transport).write (device_map "led" true)
        = .raised "boom")
    ∧ send_arduino_command ⟨true, fun _ => .raised "boom"⟩ false "led" true
        = { ret := false, msgKind := .error, simulated := false, written := none }
    ∧ (dispatch ⟨true, fun _ => .raised "boom"⟩ false
        (.ok "LED ON and FAN ON")).2.length
        = (parse_device_commands (send_ai_prompt (.ok "LED ON and FAN ON"))).length
    ∧ (parse_device_commands (send_ai_prompt (.ok "LED ON and FAN ON"))).length = 2 := by
  have h := C9_errors_contained ⟨true, fun _ => .raised "boom"⟩ ⟨false, fun _ => .ok⟩
    (.ok "LED ON and FAN ON") "led" true "boom" rfl rfl rfl
  exact ⟨rfl, h.1, h.2.2.1, by decide⟩

/-- Claim C10: a device identity outside the registry is not rejected
by `send_arduino_command`: with an open connection the fallback byte
'0' of `device_map.get(device, '0')` is written — the same wire byte as
led's OFF code — and the call reports success. -/
theorem C10_unknown_device_fallback (env : Transport) (device : String) (state : Bool)
    (hd : device ∉ registry)
    (hconn : env.connAvailable = true)
    (hok : env.write '0' = .ok) :
    device_map device state = '0'
    ∧ send_arduino_command env false device state
      = { ret := true, msgKind := .success, simulated := false, written := some '0' }
    ∧ device_map "led" false = '0' := by
  have h : device ≠ "led" ∧ device ≠ "fan" ∧ device ≠ "heater" ∧ device ≠ "lights" := by
    simp only [registry, List.mem_cons, List.not_mem_nil, or_false, not_or] at hd
    exact hd
  have hmap : device_map device state = '0' := by
    simp [device_map, h.1, h.2.1, h.2.2.1, h.2.2.2]
  refine ⟨hmap, ?_, rfl⟩
  simp [send_arduino_command, hconn, hmap, hok]

/-- Witness for `C10_unknown_device_fallback` at device "pump". -/
theorem C10_witness :
    ("pump" ∉ registry)
    ∧ device_map "pump" true = '0'
    ∧ send_arduino_command ⟨true, fun _ => .ok⟩ false "pump" true
      = { ret := true, msgKind := .success, simulated := false, written := some '0' } := by
  have h := C10_unknown_device_fallback ⟨true, fun _ => .ok⟩ "pump" true
    (by decide) rfl rfl
  exact ⟨by decide, h.1, h.2.1⟩

end NeuraControl
